import Mathlib

/-!
Shallow embedding of the axioma-py client-side domain layer
(src/axiomapy/portfoliohelpers.py, portfoliogrouphelpers.py,
batchdefinitionhelpers.py, axiomaapi/enums/instrument.py).

Remote calls are modelled by environments that record, for each call the
code makes, the outcome the remote side produces: a normal value, an
AxiomaRequestValidationError carrying a message string, or any other
exception.  Each embedded operation returns its Python return value (or
the exception it raises) together with the final object state and a trace
of the remote write calls it issued.
-/

/-- Outcome of one remote API call as observed by the Python code:
a normal return value, an AxiomaRequestValidationError whose content
carries a message string, or any other raised exception
(ConnectionError and the like). -/
inductive CallResult (α : Type) where
  | ok : α → CallResult α
  | valErr : String → CallResult α
  | fail : CallResult α
  deriving DecidableEq, Repr

/-- Python exceptions the embedded code can raise.  Distinct constructors
are kept only where a claim depends on the distinction; every other
propagated exception is collapsed to `raised`. -/
inductive PyErr where
  | raised
  | attributeError
  | valueError
  deriving DecidableEq, Repr

/-- A calendar date as held in Portfolio._portfolioDate (datetime.date). -/
structure PDate where
  year : Nat
  month : Nat
  day : Nat
  deriving DecidableEq, Repr

/-- IdentifierType from axiomaapi/enums/instrument.py.  Note the member
RedCodeTicker whose serialized value is the differently-cased string
RedcodeTicker. -/
inductive IdentifierType where
  | ISIN
  | TICKER
  | Ticker
  | SEDOL
  | CUSIP
  | Currency
  | ClientGiven
  | AxiomaDataId
  | Portfolio
  | PortfolioId
  | RedCodeTicker
  deriving DecidableEq, Repr

/-- The Python enum member name, as used by the name lookup
IdentifierType[s]. -/
def IdentifierType.memberName : IdentifierType → String
  | .ISIN => "ISIN"
  | .TICKER => "TICKER"
  | .Ticker => "Ticker"
  | .SEDOL => "SEDOL"
  | .CUSIP => "CUSIP"
  | .Currency => "Currency"
  | .ClientGiven => "ClientGiven"
  | .AxiomaDataId => "AxiomaDataId"
  | .Portfolio => "Portfolio"
  | .PortfolioId => "PortfolioId"
  | .RedCodeTicker => "RedCodeTicker"

/-- The Python enum member value, as serialized by Identifier.get_dict.
Equal to the member name for every member except RedCodeTicker. -/
def IdentifierType.memberValue : IdentifierType → String
  | .RedCodeTicker => "RedcodeTicker"
  | t => t.memberName

/-- Python name lookup IdentifierType[s]: the member whose name is s,
none when the lookup raises KeyError. -/
def IdentifierType.fromName (s : String) : Option IdentifierType :=
  if s = "ISIN" then some .ISIN
  else if s = "TICKER" then some .TICKER
  else if s = "Ticker" then some .Ticker
  else if s = "SEDOL" then some .SEDOL
  else if s = "CUSIP" then some .CUSIP
  else if s = "Currency" then some .Currency
  else if s = "ClientGiven" then some .ClientGiven
  else if s = "AxiomaDataId" then some .AxiomaDataId
  else if s = "Portfolio" then some .Portfolio
  else if s = "PortfolioId" then some .PortfolioId
  else if s = "RedCodeTicker" then some .RedCodeTicker
  else none

/-- Modelled from the spec: the QuantityType enumerated vocabulary is not
under src/ (only its callers are).  The spec describes it only as an
enumerated vocabulary of quantity scales; the repository test suite shows
the member NumberOfInstruments serializing as the string
NumberOfInstruments, so members are modelled with the serialized value
equal to the member name. -/
inductive QuantityType where
  | NumberOfInstruments
  deriving DecidableEq, Repr

/-- Member name of a QuantityType member (equals its serialized value,
see QuantityType). -/
def QuantityType.memberName : QuantityType → String
  | .NumberOfInstruments => "NumberOfInstruments"

/-- Serialized value of a QuantityType member, written by
Quantity.get_dict. -/
def QuantityType.memberValue : QuantityType → String :=
  QuantityType.memberName

/-- Python name lookup QuantityType[s]; none when it raises KeyError. -/
def QuantityType.fromName (s : String) : Option QuantityType :=
  if s = "NumberOfInstruments" then some .NumberOfInstruments else none

/-- Identifier (portfoliohelpers.py): an identifier type and a value. -/
structure Identifier where
  ident : IdentifierType
  value : String
  deriving DecidableEq, Repr

/-- Quantity (portfoliohelpers.py): a numeric value, a scale and an
optional currency.  The numeric value is modelled as a rational; the
code never computes with it, it only stores and copies it
(float(value) on a number is the identity for the values that occur). -/
structure Quantity where
  value : Rat
  scale : QuantityType
  currency : Option String
  deriving DecidableEq, Repr

/-- Position (portfoliohelpers.py): client id, identifiers, quantity and
an optional description.  The attributes dict takes no part in any
serialization and is omitted. -/
structure Position where
  clientId : String
  description : Option String
  identifiers : List Identifier
  quantity : Quantity
  deriving DecidableEq, Repr

/-- PValuation models the Valuation class (portfoliohelpers.py). -/
structure PValuation where
  aum : Rat
  scale : QuantityType
  netValue : Rat
  longAum : Option Rat
  shortAum : Option Rat
  grossAum : Option Rat
  numberOfUnits : Option Rat
  deriving DecidableEq, Repr

/-- The mutable fields of a Portfolio instance that the embedded
operations read or write. -/
structure PortfolioState where
  portfolioName : Option String
  description : Option String
  currency : Option String
  portfolioDate : Option PDate
  portfolioId : Option Int
  valuation : Option PValuation
  positions : List Position
  deriving DecidableEq, Repr

/-- Remote responses consumed by one run of Portfolio.put_portfolio:
the outcome of PortfoliosAPI.post_portfolio (on success, the integer
parsed from the location header), the outcome of the filtered
PortfoliosAPI.get_portfolios lookup (on success, the item ids in order),
and the outcome of the PortfoliosAPI.put_portfolio update as a function
of the targeted id. -/
structure PutPortfolioEnv where
  postResult : CallResult Int
  lookupResult : CallResult (List Int)
  putResult : Int → CallResult Unit

/-- Result of a run of Portfolio.put_portfolio: final object state, the
Python return value or raised exception, and the ids targeted by
PortfoliosAPI.put_portfolio update calls, in order. -/
structure PPOut where
  state : PortfolioState
  result : Except PyErr Bool
  updateCalls : List Int
  deriving Repr

/-- Portfolio.put_portfolio (portfoliohelpers.py lines 430-475).
Attempt the create; on success take the id from the location header.
On AxiomaRequestValidationError whose content message is exactly
Duplicate Resource, look the portfolio up by exact name, take the first
item id (an empty item list makes items[0] raise IndexError), and issue
one update scoped to that id; a failure of the update propagates.  Any
other failure of the create propagates.  On every path that returns
normally, _portfolioId is assigned and True is returned. -/
def put_portfolio (env : PutPortfolioEnv) (s : PortfolioState) : PPOut :=
  match env.postResult with
  | .ok pId =>
      { state := { s with portfolioId := some pId }, result := .ok true,
        updateCalls := [] }
  | .valErr msg =>
      if msg = "Duplicate Resource" then
        match env.lookupResult with
        | .ok items =>
            match items.head? with
            | some pId =>
                match env.putResult pId with
                | .ok _ =>
                    { state := { s with portfolioId := some pId },
                      result := .ok true, updateCalls := [pId] }
                | _ =>
                    { state := s, result := .error .raised,
                      updateCalls := [pId] }
            | none => { state := s, result := .error .raised, updateCalls := [] }
        | _ => { state := s, result := .error .raised, updateCalls := [] }
      else
        { state := s, result := .error .raised, updateCalls := [] }
  | .fail => { state := s, result := .error .raised, updateCalls := [] }

/-- The status-code test used throughout Portfolio.put_positions:
status_code in range(200, 299), i.e. 200 <= c <= 298.  Note that this
range excludes 299. -/
def inSuccessRange (c : Nat) : Bool :=
  200 ≤ c && c < 299

/-- The chunk partition computed by Portfolio.put_positions (line 579):
the list comprehension over range(0, len(l), n) of the slices
l[i : i + n], transcribed with n fixed by the caller. -/
def chunkPositions (l : List Position) (n : Nat) : List (List Position) :=
  (List.range ((l.length + n - 1) / n)).map (fun i => (l.drop (i * n)).take n)

/-- Remote responses consumed by one run of Portfolio.put_positions:
the responses of the nested put_portfolio run (used only when
_portfolioId is None), the outcome of PortfoliosAPI.delete_positions
(on success, its status code), and the outcome of each
PortfoliosAPI.patch_positions call as a function of the chunk index. -/
structure PutPositionsEnv where
  upsertEnv : PutPortfolioEnv
  deleteResult : CallResult Nat
  patchResult : Nat → CallResult Nat

/-- Result of a run of Portfolio.put_positions: final state, Python
return value or raised exception, whether the delete call was issued,
and the indices of the chunks for which a patch call was issued, in
order. -/
structure PPosOut where
  state : PortfolioState
  result : Except PyErr Bool
  deleteCalled : Bool
  patchedChunks : List Nat
  deriving Repr

/-- The for-loop over enumerate(chunked_positions) in
Portfolio.put_positions (lines 587-610), wrapped in try/except: a patch
whose status code is outside range(200, 299) returns False, a patch that
raises is caught and returns False; either way no later chunk is
attempted.  Returns the loop outcome and the chunk indices patched,
starting from index i. -/
def patchLoop (patch : Nat → CallResult Nat) : Nat → List (List Position) → Bool × List Nat
  | _, [] => (true, [])
  | i, _ :: rest =>
      match patch i with
      | .ok c =>
          if inSuccessRange c then
            let r := patchLoop patch (i + 1) rest
            (r.1, i :: r.2)
          else (false, [i])
      | _ => (false, [i])

/-- The delete-then-chunked-patch body of Portfolio.put_positions
(lines 554-617), entered once _portfolioId is known.  The delete call is
wrapped in try/except: a non-2xx-range status or a raised exception
yields False.  The object state is never written in this part. -/
def put_positions_body (env : PutPositionsEnv) (s : PortfolioState) : PPosOut :=
  match env.deleteResult with
  | .ok c =>
      if inSuccessRange c then
        let r := patchLoop env.patchResult 0 (chunkPositions s.positions 10000)
        { state := s, result := .ok r.1, deleteCalled := true,
          patchedChunks := r.2 }
      else
        { state := s, result := .ok false, deleteCalled := true,
          patchedChunks := [] }
  | _ =>
      { state := s, result := .ok false, deleteCalled := true,
        patchedChunks := [] }

/-- Portfolio.put_positions (portfoliohelpers.py lines 533-617).
If _portfolioId is None, self.put_portfolio() is called first, outside
any try/except, so an exception it raises propagates; if it returned
False the method would return False without issuing the delete.  Then
the delete and the chunked patches run inside try/except blocks. -/
def put_positions (env : PutPositionsEnv) (s : PortfolioState) : PPosOut :=
  match s.portfolioId with
  | some _ => put_positions_body env s
  | none =>
      let pp := put_portfolio env.upsertEnv s
      match pp.result with
      | .error e =>
          { state := pp.state, result := .error e, deleteCalled := false,
            patchedChunks := [] }
      | .ok b =>
          if b then put_positions_body env pp.state
          else
            { state := pp.state, result := .ok false, deleteCalled := false,
              patchedChunks := [] }

/-- Result of a run of Portfolio.set_valuation: final state and the
Python return value or raised exception. -/
structure SVOut where
  state : PortfolioState
  result : Except PyErr Bool
  deriving Repr

/-- Portfolio.set_valuation (portfoliohelpers.py lines 646-659).
self._valuation is assigned before anything else; then the
missing-date precondition raises ValueError; then, only when
_portfolioDate is None, the supplied date is stored; finally
PortfoliosAPI.put_valuation runs with no exception handler, so a failing
push propagates.  The date argument is taken already parsed; the
length-10 assertion path of the string form is not needed here. -/
def set_valuation (pushResult : CallResult Unit) (s : PortfolioState)
    (v : PValuation) (date : Option PDate) : SVOut :=
  let s1 := { s with valuation := some v }
  if date = none ∧ s1.portfolioDate = none then
    { state := s1, result := .error .valueError }
  else
    let s2 := if s1.portfolioDate = none then { s1 with portfolioDate := date }
              else s1
    match pushResult with
    | .ok _ => { state := s2, result := .ok true }
    | _ => { state := s2, result := .error .raised }

/-- A candidate passed to PortfolioGroup.add_portfolio_to_list: either a
Portfolio instance, carrying its _portfolioId field (None while
unsaved), or an object of any other type. -/
inductive GroupCandidate where
  | portfolio : Option Int → GroupCandidate
  | other : GroupCandidate
  deriving DecidableEq, Repr

/-- The for-loop of PortfolioGroup.add_portfolio_to_list (lines 80-86).
For a Portfolio item with _portfolioId None the code calls
self.put_portfolio(); the PortfolioGroup class defines no attribute
put_portfolio (its own upsert is named put_portfolio_group), so the call
raises AttributeError before anything is appended.  For a saved
Portfolio, its id is appended.  For any other item the raise in the
else-branch fires. -/
def addLoopPG : List Int → List GroupCandidate → Except PyErr (List Int)
  | acc, [] => .ok acc
  | _, .portfolio none :: _ => .error .attributeError
  | acc, .portfolio (some pid) :: rest => addLoopPG (acc ++ [pid]) rest
  | _, .other :: _ => .error .raised

/-- PortfolioGroup.add_portfolio_to_list (portfoliogrouphelpers.py lines
79-87): run the loop over the candidates, then replace _portfolios with
sorted(_portfolios).  Python sorted produces the ascending stable sort,
which for integer ids is the unique sorted list with the same multiset
of elements; insertionSort computes that list.  There is no
deduplication step. -/
def add_portfolio_to_list (portfolios : List Int)
    (items : List GroupCandidate) : Except PyErr (List Int) :=
  (addLoopPG portfolios items).map (fun l => l.insertionSort (· ≤ ·))

/-- PortfolioGroup.remove_portfolio (portfoliogrouphelpers.py lines
89-95), after the argument has been converted to a bare id.  The loop
body evaluates p._portfolioId for p an element of _portfolios; the
elements of _portfolios are integer ids (the constructor docstring says
list, portfolio ids, and add_portfolio_to_list appends
item._portfolioId), and an int has no attribute _portfolioId, so the
first iteration raises AttributeError.  Only the empty list, whose loop
body never runs, returns normally. -/
def remove_portfolio (portfolios : List Int) (_target : Int) :
    Except PyErr (List Int) :=
  match portfolios with
  | [] => .ok []
  | _ :: _ => .error .attributeError

/-- A candidate passed to BatchDefinition.add_portfolio_group_to_list:
either a PortfolioGroup instance carrying its _portfolioGroupId (None
while unsaved), or an object of any other type. -/
inductive BDCandidate where
  | group : Option Int → BDCandidate
  | other : BDCandidate
  deriving DecidableEq, Repr

/-- The for-loop of BatchDefinition.add_portfolio_group_to_list (lines
136-144).  For a PortfolioGroup with _portfolioGroupId None the code
evaluates item.portfoliogrouphelpers.put_portfolio_group(); a
PortfolioGroup instance has no attribute portfoliogrouphelpers, so
AttributeError is raised.  For a saved group, a None membership list is
first replaced by [] and the group id is appended.  For any other item
the raise in the else-branch fires. -/
def addLoopBD : Option (List Int) → List BDCandidate → Except PyErr (Option (List Int))
  | cur, [] => .ok cur
  | _, .group none :: _ => .error .attributeError
  | cur, .group (some g) :: rest => addLoopBD (some (cur.getD [] ++ [g])) rest
  | _, .other :: _ => .error .raised

/-- BatchDefinition.add_portfolio_group_to_list
(batchdefinitionhelpers.py lines 135-146): run the loop, then replace
the membership list by sorted(list(set(l))).  set(l) holds exactly the
distinct elements of l, i.e. the multiset of l.dedup, and sorted of that
multiset is the unique ascending duplicate-free list with those
elements, computed here as insertionSort of dedup.  If the membership
list is still None after the loop (no PortfolioGroup candidate occurred
and it started as None), set(None) raises TypeError. -/
def add_portfolio_group_to_list (cur : Option (List Int))
    (items : List BDCandidate) : Except PyErr (List Int) :=
  match addLoopBD cur items with
  | .error e => .error e
  | .ok none => .error .raised
  | .ok (some l) => .ok (l.dedup.insertionSort (· ≤ ·))

/-- BatchDefinition.remove_portfolio_group (batchdefinitionhelpers.py
lines 148-154), after the argument has been converted to a bare id:
remove the first element equal to the target, no-op when none matches. -/
def remove_portfolio_group : List Int → Int → List Int
  | [], _ => []
  | p :: rest, t => if p = t then rest else p :: remove_portfolio_group rest t

/-- The dict {type, value} written by Identifier.get_dict and read back
by the position parser. -/
structure IdentifierDict where
  type : String
  value : String
  deriving DecidableEq, Repr

/-- The dict {value, scale, currency?} written by Quantity.get_dict. -/
structure QuantityDict where
  value : Rat
  scale : String
  currency : Option String
  deriving DecidableEq, Repr

/-- The per-position write payload built in Portfolio.put_positions
(lines 590-592): {clientId, identifiers, quantity}. -/
structure PositionWriteDict where
  clientId : String
  identifiers : List IdentifierDict
  quantity : QuantityDict
  deriving DecidableEq, Repr

/-- One item of the read payload consumed by
Portfolio.get_positions_for_date: the same fields as the write payload
plus the optional top-level currency key that the parser reads with
p.get(currency, None). -/
structure PositionReadItem where
  clientId : String
  identifiers : List IdentifierDict
  quantity : QuantityDict
  currency : Option String
  deriving DecidableEq, Repr

/-- The write payload for one position, as built in
Portfolio.put_positions lines 590-592 from Identifier.get_dict and
Quantity.get_dict: identifier types and the quantity scale are
serialized through their enum member value. -/
def writePosition (p : Position) : PositionWriteDict :=
  { clientId := p.clientId,
    identifiers := p.identifiers.map
      (fun i => { type := i.ident.memberValue, value := i.value }),
    quantity := { value := p.quantity.value,
                  scale := p.quantity.scale.memberValue,
                  currency := p.quantity.currency } }

/-- The read payload equivalent to a given write payload.  This
definition follows the words of the spec, not the source: the spec says
the read payload mirrors the write payload under a collection key, plus
an optional top-level currency; so the item carries the same fields and
its top-level currency carries the currency the write payload held
inside its quantity dict. -/
def readItemOfWrite (w : PositionWriteDict) : PositionReadItem :=
  { clientId := w.clientId, identifiers := w.identifiers,
    quantity := w.quantity, currency := w.quantity.currency }

/-- The identifier-list parse inside Portfolio.get_positions_for_date
(lines 503-508): each type string is looked up by enum member name,
IdentifierType[s]; a failing lookup raises KeyError. -/
def parseIdentifiers : List IdentifierDict → Except PyErr (List Identifier)
  | [] => .ok []
  | d :: rest =>
      match IdentifierType.fromName d.type with
      | none => .error .raised
      | some t =>
          match parseIdentifiers rest with
          | .error e => .error e
          | .ok l => .ok ({ ident := t, value := d.value } :: l)

/-- The per-item parse of Portfolio.get_positions_for_date (lines
502-514): identifiers parsed by name lookup, quantity rebuilt from the
nested scale (name lookup on QuantityType, KeyError on failure) and
value, and the currency taken from the top level of the item with
p.get(currency, None).  The parsed Position has no description. -/
def parseReadItem (item : PositionReadItem) : Except PyErr Position :=
  match parseIdentifiers item.identifiers with
  | .error e => .error e
  | .ok ids =>
      match QuantityType.fromName item.quantity.scale with
      | none => .error .raised
      | some sc =>
          .ok { clientId := item.clientId, description := none,
                identifiers := ids,
                quantity := { value := item.quantity.value, scale := sc,
                              currency := item.currency } }

/-- A fresh Portfolio as built by the constructor used in the test
suite: named, dated, unsaved, with no positions. -/
def baseState : PortfolioState :=
  { portfolioName := some "Test Portfolio", description := some "A test portfolio",
    currency := some "USD", portfolioDate := some ⟨2025, 6, 25⟩,
    portfolioId := none, valuation := none, positions := [] }

/-- A fully populated position used as concrete input. -/
def samplePosition : Position :=
  { clientId := "001", description := none,
    identifiers := [{ ident := .TICKER, value := "AAPL" }],
    quantity := { value := 100, scale := .NumberOfInstruments,
                  currency := some "USD" } }

/-- C1: if the create attempt fails with a failure whose message
classifies it as Duplicate Resource, and the exact-name lookup returns a
first match with identity pid, and the update call returns normally,
then exactly one update call is issued, scoped to pid, and
put_portfolio stores pid as the resolved remote identity and returns
True.  The claim is the instance pid = 42. -/
theorem put_portfolio_conflict_fallback (env : PutPortfolioEnv)
    (s : PortfolioState) (items : List Int) (pid : Int)
    (h1 : env.postResult = .valErr "Duplicate Resource")
    (h2 : env.lookupResult = .ok items)
    (h3 : items.head? = some pid)
    (h4 : env.putResult pid = .ok ()) :
    (put_portfolio env s).updateCalls = [pid] ∧
    (put_portfolio env s).state.portfolioId = some pid ∧
    (put_portfolio env s).result = .ok true := by
  simp [put_portfolio, h1, h2, h3, h4]

/-- Environment realizing the C1 scenario: create reports Duplicate
Resource, the lookup finds one portfolio with id 42, the update
succeeds. -/
def conflictEnv : PutPortfolioEnv :=
  { postResult := .valErr "Duplicate Resource", lookupResult := .ok [42],
    putResult := fun _ => .ok () }

/-- Witness for C1 at the concrete scenario of the claim: identity 42. -/
theorem put_portfolio_conflict_fallback_witness :
    (put_portfolio conflictEnv baseState).updateCalls = [42] ∧
    (put_portfolio conflictEnv baseState).state.portfolioId = some 42 ∧
    (put_portfolio conflictEnv baseState).result = .ok true :=
  put_portfolio_conflict_fallback conflictEnv baseState [42] 42 rfl rfl rfl rfl

/-- C10: whenever put_portfolio returns normally its value is True and
an integer remote identity has been assigned; consequently inside
put_positions a normal False result can only come from the delete or
patch stage, never from the not-put_portfolio guard, so every normal
False return of put_positions has issued the delete call. -/
theorem put_portfolio_never_false (penv : PutPortfolioEnv)
    (env : PutPositionsEnv) (s t : PortfolioState) :
    (∀ b, (put_portfolio penv s).result = .ok b →
        b = true ∧ ((put_portfolio penv s).state.portfolioId).isSome = true) ∧
    ((put_positions env t).result = .ok false →
        (put_positions env t).deleteCalled = true) := by
  have key : ∀ (e : PutPortfolioEnv) (u : PortfolioState) (b : Bool),
      (put_portfolio e u).result = .ok b →
      b = true ∧ ((put_portfolio e u).state.portfolioId).isSome = true := by
    intro e u b hb
    unfold put_portfolio at hb ⊢
    rcases hpost : e.postResult with pId | msg | _ <;> simp [hpost] at hb ⊢
    · exact hb
    · by_cases hm : msg = "Duplicate Resource"
      · subst hm
        simp at hb ⊢
        rcases hlk : e.lookupResult with items | m | _ <;> simp [hlk] at hb ⊢
        rcases hhd : items.head? with _ | pId <;> simp [hhd] at hb ⊢
        rcases hput : e.putResult pId with _ | m | _ <;> simp [hput] at hb ⊢
        exact hb
      · simp [hm] at hb
  refine ⟨key penv s, ?_⟩
  unfold put_positions
  rcases hid : t.portfolioId with _ | pid
  · rcases hres : (put_portfolio env.upsertEnv t).result with e | b
    · simp [hres]
    · rcases (key env.upsertEnv t b hres).1
      simp [hres, put_positions_body]
      rcases hdel : env.deleteResult with c | m | _ <;> simp
      split <;> simp
  · simp [put_positions_body]
    rcases hdel : env.deleteResult with c | m | _ <;> simp
    split <;> simp

/-- Environment in which the create succeeds with id 7. -/
def createEnv : PutPortfolioEnv :=
  { postResult := .ok 7, lookupResult := .fail, putResult := fun _ => .fail }

/-- A saved portfolio state (remote identity 1) holding one position. -/
def savedState : PortfolioState :=
  { baseState with portfolioId := some 1, positions := [samplePosition] }

/-- Environment in which the delete call reports status 500 and every
patch reports status 200. -/
def deleteFailEnv : PutPositionsEnv :=
  { upsertEnv := createEnv, deleteResult := .ok 500,
    patchResult := fun _ => .ok 200 }

/-- Witness for C10: a run whose create succeeds returns True with an
assigned identity, and a run of put_positions that returns False
(failed delete) has issued the delete call. -/
theorem put_portfolio_never_false_witness :
    (true = true ∧
      ((put_portfolio createEnv baseState).state.portfolioId).isSome = true) ∧
    (put_positions deleteFailEnv savedState).deleteCalled = true :=
  ⟨(put_portfolio_never_false createEnv deleteFailEnv baseState savedState).1
      true rfl,
   (put_portfolio_never_false createEnv deleteFailEnv baseState savedState).2
      rfl⟩

/-- C8: the chunk partition used by put_positions, with chunk size
10000, sends a list of exactly 10000 positions as exactly 1 chunk, and a
list of 10001 positions as exactly 2 chunks whose sizes are 10000 and 1
in that order. -/
theorem put_positions_chunking (l : List Position) :
    (l.length = 10000 → chunkPositions l 10000 = [l]) ∧
    (l.length = 10001 →
      (chunkPositions l 10000).map List.length = [10000, 1]) := by
  constructor
  · intro h
    unfold chunkPositions
    rw [h]
    norm_num
    rw [show List.range 1 = [0] from rfl]
    simp
    omega
  · intro h
    unfold chunkPositions
    rw [h]
    norm_num
    rw [show List.range 2 = [0, 1] from rfl]
    simp [List.length_take, List.length_drop, h]

/-- Witness for C8 at concrete lists of lengths 10000 and 10001. -/
theorem put_positions_chunking_witness :
    chunkPositions (List.replicate 10000 samplePosition) 10000 =
      [List.replicate 10000 samplePosition] ∧
    (chunkPositions (List.replicate 10001 samplePosition) 10000).map
      List.length = [10000, 1] :=
  ⟨(put_positions_chunking _).1 (List.length_replicate 10000 samplePosition),
   (put_positions_chunking _).2 (List.length_replicate 10001 samplePosition)⟩

/-- Whether the patch call for chunk index i returns normally with a
status code inside range(200, 299). -/
def chunkOkB (patch : Nat → CallResult Nat) (i : Nat) : Bool :=
  match patch i with
  | .ok c => inSuccessRange c
  | _ => false

/-- Whether the delete call returns normally with a status code inside
range(200, 299). -/
def deleteOkB : CallResult Nat → Bool
  | .ok c => inSuccessRange c
  | _ => false

theorem patchLoop_true_iff (patch : Nat → CallResult Nat) :
    ∀ (chunks : List (List Position)) (i : Nat),
      (patchLoop patch i chunks).1 = true ↔
        ∀ j, j < chunks.length → chunkOkB patch (i + j) = true := by
  intro chunks
  induction chunks with
  | nil =>
      intro i
      simp [patchLoop]
  | cons c rest ih =>
      intro i
      constructor
      · intro hl j hj
        unfold patchLoop at hl
        rcases hp : patch i with code | m | _ <;> rw [hp] at hl <;> simp at hl
        by_cases h2 : inSuccessRange code
        · rw [if_pos h2] at hl
          simp at hl
          cases j with
          | zero => simp [chunkOkB, hp, h2]
          | succ j2 =>
              have hr := (ih (i + 1)).mp hl j2 (by simpa using hj)
              have heq : i + 1 + j2 = i + (j2 + 1) := by omega
              rwa [heq] at hr
        · rw [if_neg h2] at hl
          simp at hl
      · intro hall
        have h0 := hall 0 (by simp)
        unfold patchLoop
        rcases hp : patch i with code | m | _ <;>
          simp [chunkOkB, hp] at h0
        simp [h0]
        exact (ih (i + 1)).mpr (fun j hj => by
          have hs := hall (j + 1) (by simp only [List.length_cons]; omega)
          have heq : i + (j + 1) = i + 1 + j := by omega
          rwa [heq] at hs)

theorem patchLoop_failure (patch : Nat → CallResult Nat) :
    ∀ (chunks : List (List Position)) (i k : Nat),
      k < chunks.length →
      (∀ j, j < k → chunkOkB patch (i + j) = true) →
      chunkOkB patch (i + k) = false →
      patchLoop patch i chunks = (false, List.range' i (k + 1)) := by
  intro chunks
  induction chunks with
  | nil =>
      intro i k hk _ _
      simp at hk
  | cons c rest ih =>
      intro i k hk hpre hfail
      cases k with
      | zero =>
          simp only [Nat.add_zero] at hfail
          unfold patchLoop
          rcases hp : patch i with code | m | _ <;>
            simp [chunkOkB, hp] at hfail <;>
            simp [List.range']
          simp [hfail]
      | succ k2 =>
          have h0 := hpre 0 (by omega)
          unfold patchLoop
          rcases hp : patch i with code | m | _ <;>
            simp [chunkOkB, hp] at h0
          simp [h0]
          have hrec := ih (i + 1) k2 (by simpa using hk)
            (fun j hj => by
              have hs := hpre (j + 1) (by omega)
              have heq : i + (j + 1) = i + 1 + j := by omega
              rwa [heq] at hs)
            (by
              have heq : i + (k2 + 1) = i + 1 + k2 := by omega
              rwa [heq] at hfail)
          rw [hrec]
          simp [List.range']

/-- The delete-and-patch part of put_positions never raises, never
writes the object state, and always issues the delete call. -/
theorem put_positions_body_shape (env : PutPositionsEnv)
    (s : PortfolioState) :
    (∃ b, (put_positions_body env s).result = .ok b) ∧
    (put_positions_body env s).state = s ∧
    (put_positions_body env s).deleteCalled = true := by
  unfold put_positions_body
  rcases hd : env.deleteResult with c | m | _ <;> simp
  split <;> simp

/-- C2 amended: with a resolved remote identity, put_positions returns
True exactly when the delete call and every chunk patch call return a
status in range(200, 299), i.e. 200..298; on the first chunk whose patch
is not in that range (the delete having passed), it returns False having
issued patch calls exactly for the chunks up to and including the
failing one, so no later chunk is attempted and the earlier chunks stay
applied; and a delete outside that range yields False with no chunk
patched. -/
theorem put_positions_pipeline (env : PutPositionsEnv)
    (s : PortfolioState) (pid : Int) (h : s.portfolioId = some pid) :
    ((put_positions env s).result = .ok true ↔
      (deleteOkB env.deleteResult = true ∧
        ∀ j, j < (chunkPositions s.positions 10000).length →
          chunkOkB env.patchResult j = true)) ∧
    (∀ k, k < (chunkPositions s.positions 10000).length →
      (∀ j, j < k → chunkOkB env.patchResult j = true) →
      chunkOkB env.patchResult k = false →
      deleteOkB env.deleteResult = true →
      (put_positions env s).result = .ok false ∧
      (put_positions env s).patchedChunks = List.range (k + 1)) ∧
    (deleteOkB env.deleteResult = false →
      (put_positions env s).result = .ok false ∧
      (put_positions env s).patchedChunks = []) := by
  have hbody : put_positions env s = put_positions_body env s := by
    unfold put_positions
    rw [h]
  rw [hbody]
  unfold put_positions_body
  rcases hd : env.deleteResult with c | m | _ <;>
    simp [deleteOkB]
  · by_cases h2 : inSuccessRange c <;> simp [h2]
    · refine ⟨?_, ?_⟩
      · constructor
        · intro hl j hj
          simpa using (patchLoop_true_iff env.patchResult _ 0).mp hl j hj
        · intro hall
          exact (patchLoop_true_iff env.patchResult _ 0).mpr
            (fun j hj => by simpa using hall j hj)
      · intro k hk hpre hfail
        have hfl := patchLoop_failure env.patchResult
          (chunkPositions s.positions 10000) 0 k hk
          (fun j hj => by simpa using hpre j hj) (by simpa using hfail)
        rw [hfl]
        exact ⟨rfl, by simp [List.range_eq_range']⟩

/-- A saved, positionless portfolio state. -/
def savedEmptyState : PortfolioState :=
  { baseState with portfolioId := some 1 }

/-- Environment whose delete call reports status 299. -/
def delete299Env : PutPositionsEnv :=
  { upsertEnv := createEnv, deleteResult := .ok 299,
    patchResult := fun _ => .ok 200 }

/-- C2 counterexample: 299 is a 2xx status, and with a delete status of
299 and no chunks at all (so every chunk patch trivially returns 2xx)
put_positions returns False, because the code tests
status_code in range(200, 299), which excludes 299. -/
theorem put_positions_2xx_counterexample :
    (200 ≤ 299 ∧ 299 < 300) ∧
    (put_positions delete299Env savedEmptyState).result = .ok false :=
  ⟨by omega, rfl⟩

/-- Environment whose delete succeeds with 204 and whose every patch
reports status 503. -/
def patchFailEnv : PutPositionsEnv :=
  { upsertEnv := createEnv, deleteResult := .ok 204,
    patchResult := fun _ => .ok 503 }

/-- Witness for the amended C2 at a concrete one-chunk run whose only
patch fails: the result is False and exactly chunk 0 was attempted. -/
theorem put_positions_pipeline_witness :
    (put_positions patchFailEnv savedState).result = .ok false ∧
    (put_positions patchFailEnv savedState).patchedChunks = List.range 1 :=
  (put_positions_pipeline patchFailEnv savedState 1 rfl).2.1 0
    (by decide) (fun j hj => absurd hj (by omega)) rfl rfl

/-- C3 amended: put_positions propagates an exception exactly when the
portfolio had no remote identity yet and the put_portfolio call that
ensures one raises (that call stands outside the try/except blocks);
every transport failure of the delete call or of a chunk patch call is
caught and converted to a False result. -/
theorem put_positions_raise_characterization (env : PutPositionsEnv)
    (s : PortfolioState) :
    (∃ e, (put_positions env s).result = .error e) ↔
      (s.portfolioId = none ∧
        ∃ e, (put_portfolio env.upsertEnv s).result = .error e) := by
  unfold put_positions
  rcases hid : s.portfolioId with _ | pid
  · rcases hres : (put_portfolio env.upsertEnv s).result with e | b
    · simp [hres]
    · simp [hres]
      rcases (put_positions_body_shape env (put_portfolio env.upsertEnv s).state).1
        with ⟨b2, hb2⟩
      rcases hb : b
      · simp [hb2]
      · simp [hb2]
  · rcases (put_positions_body_shape env s).1 with ⟨b2, hb2⟩
    simp [hb2]

/-- Environment whose create call raises a transport exception. -/
def transportFailEnv : PutPositionsEnv :=
  { upsertEnv := { postResult := .fail, lookupResult := .fail,
                   putResult := fun _ => .fail },
    deleteResult := .ok 200, patchResult := fun _ => .ok 200 }

/-- C3 counterexample: on an unsaved portfolio, a transport exception
raised while ensuring a remote identity exists propagates out of
put_positions instead of being converted to False. -/
theorem put_positions_raises_counterexample :
    (put_positions transportFailEnv baseState).result = .error .raised :=
  rfl

/-- Witness for the amended C3: a saved portfolio with a failing delete
gets False, not an exception, and the characterization applies. -/
theorem put_positions_raise_characterization_witness :
    ¬ (∃ e, (put_positions deleteFailEnv savedState).result = .error e) := by
  intro hc
  rcases (put_positions_raise_characterization deleteFailEnv savedState).mp hc
    with ⟨hnone, _⟩
  simp [savedState, baseState] at hnone

theorem remove_portfolio_group_sublist (l : List Int) (x : Int) :
    List.Sublist (remove_portfolio_group l x) l := by
  induction l with
  | nil => simp [remove_portfolio_group]
  | cons p rest ih =>
      unfold remove_portfolio_group
      by_cases hp : p = x
      · simp [hp]
      · simp only [hp, if_false]
        exact List.Sublist.cons₂ p ih

/-- C4 amended: a successful BatchDefinition add-members call leaves the
portfolio-group membership list duplicate-free and ascending-sorted, and
its remove-member call preserves that invariant; the PortfolioGroup
add-members call sorts its membership list ascending but does not
deduplicate it, so for PortfolioGroup the list is only sorted, not
duplicate-free. -/
theorem membership_sorted_nodup :
    (∀ (cur : Option (List Int)) (items : List BDCandidate) (l : List Int),
        add_portfolio_group_to_list cur items = .ok l →
        l.Sorted (· ≤ ·) ∧ l.Nodup) ∧
    (∀ (l : List Int) (x : Int), l.Sorted (· ≤ ·) → l.Nodup →
        (remove_portfolio_group l x).Sorted (· ≤ ·) ∧
        (remove_portfolio_group l x).Nodup) ∧
    (∀ (cur : List Int) (items : List GroupCandidate) (l : List Int),
        add_portfolio_to_list cur items = .ok l → l.Sorted (· ≤ ·)) := by
  refine ⟨?_, ?_, ?_⟩
  · intro cur items l h
    unfold add_portfolio_group_to_list at h
    cases hl : addLoopBD cur items with
    | error e => rw [hl] at h; simp at h
    | ok m =>
        rw [hl] at h
        cases m with
        | none => simp at h
        | some m2 =>
            simp at h
            subst h
            constructor
            · exact List.sorted_insertionSort _ _
            · exact (List.perm_insertionSort _ _).nodup_iff.mpr
                (List.nodup_dedup m2)
  · intro l x hs hn
    exact ⟨hs.sublist (remove_portfolio_group_sublist l x),
      hn.sublist (remove_portfolio_group_sublist l x)⟩
  · intro cur items l h
    unfold add_portfolio_to_list at h
    cases hl : addLoopPG cur items with
    | error e => rw [hl] at h; simp [Except.map] at h
    | ok m =>
        rw [hl] at h
        simp [Except.map] at h
        subst h
        exact List.sorted_insertionSort _ _

/-- C4 counterexample: adding a saved portfolio with id 5 to a
PortfolioGroup whose membership list is [5] yields [5, 5], which is not
duplicate-free. -/
theorem add_portfolio_duplicate_counterexample :
    add_portfolio_to_list [5] [.portfolio (some 5)] = .ok [5, 5] ∧
    ¬ ([5, 5] : List Int).Nodup :=
  ⟨rfl, by decide⟩

/-- Witness for the amended C4 at concrete mutations. -/
theorem membership_sorted_nodup_witness :
    (([1, 2, 3] : List Int).Sorted (· ≤ ·) ∧ ([1, 2, 3] : List Int).Nodup) ∧
    ((remove_portfolio_group [1, 2, 3] 2).Sorted (· ≤ ·) ∧
      (remove_portfolio_group [1, 2, 3] 2).Nodup) ∧
    (([4, 5] : List Int).Sorted (· ≤ ·)) :=
  ⟨membership_sorted_nodup.1 (some [3, 1, 3]) [.group (some 2)] [1, 2, 3] rfl,
   membership_sorted_nodup.2.1 [1, 2, 3] 2 (by decide) (by decide),
   membership_sorted_nodup.2.2 [5] [.portfolio (some 4)] [4, 5] rfl⟩

/-- C5: at the failing input of the claim, an unsaved member being added
to a group-like entity, the code raises AttributeError instead of
upserting the member: PortfolioGroup.add_portfolio_to_list calls
self.put_portfolio(), an attribute the PortfolioGroup class does not
define, and BatchDefinition.add_portfolio_group_to_list evaluates
item.portfoliogrouphelpers, an attribute a PortfolioGroup instance does
not have.  No upsert happens and no identity is appended. -/
theorem cascading_save_attribute_error :
    add_portfolio_to_list [] [.portfolio none] = .error .attributeError ∧
    add_portfolio_group_to_list (some []) [.group none] =
      .error .attributeError :=
  ⟨rfl, rfl⟩

/-- C6: at the failing input of the claim, a PortfolioGroup whose
membership list is [42], remove_portfolio(42) raises AttributeError
because the loop evaluates p._portfolioId on the bare integer ids the
list holds; the BatchDefinition variant on the same inputs behaves as
the claim says: it removes exactly the first matching element and is a
no-op when no element matches. -/
theorem remove_portfolio_attribute_error :
    remove_portfolio [42] 42 = .error .attributeError ∧
    remove_portfolio_group [42] 42 = [] ∧
    remove_portfolio_group [41] 42 = [41] ∧
    remove_portfolio_group [7, 9, 7] 7 = [9, 7] :=
  ⟨rfl, rfl, rfl, rfl⟩

/-- C7 amended: if the remote call fails, put_portfolio leaves the local
state unchanged and propagates the failure, and put_positions on a
portfolio with a resolved remote identity never writes the local state
and surfaces failure as a False result; set_valuation, by contrast,
assigns the cached valuation before the remote push, so that field is
mutated even when the push fails. -/
theorem failed_remote_ops_leave_state (penv : PutPortfolioEnv)
    (env : PutPositionsEnv) (s t : PortfolioState) (pid : Int)
    (h : t.portfolioId = some pid) :
    (∀ e, (put_portfolio penv s).result = .error e →
        (put_portfolio penv s).state = s) ∧
    (put_positions env t).state = t := by
  constructor
  · intro e he
    unfold put_portfolio at he ⊢
    rcases hpost : penv.postResult with pId | msg | _ <;>
      simp [hpost] at he ⊢
    by_cases hm : msg = "Duplicate Resource"
    · subst hm
      simp at he ⊢
      rcases hlk : penv.lookupResult with items | m | _ <;>
        simp [hlk] at he ⊢
      rcases hhd : items.head? with _ | pId <;> simp [hhd] at he ⊢
      rcases hput : penv.putResult pId with _ | m | _ <;>
        simp [hput] at he ⊢
    · simp [hm]
  · have hbody : put_positions env t = put_positions_body env t := by
      unfold put_positions
      rw [h]
    rw [hbody]
    exact (put_positions_body_shape env t).2.1

/-- An environment in which every remote call raises a transport
exception. -/
def allFailEnv : PutPortfolioEnv :=
  { postResult := .fail, lookupResult := .fail, putResult := fun _ => .fail }

/-- A saved, dated portfolio state used as the C7 concrete input. -/
def valuationState : PortfolioState :=
  { baseState with portfolioId := some 1 }

/-- A concrete valuation. -/
def sampleValuation : PValuation :=
  { aum := 1000, scale := .NumberOfInstruments, netValue := 10,
    longAum := none, shortAum := none, grossAum := none,
    numberOfUnits := none }

/-- C7 counterexample: set_valuation on a portfolio with no cached
valuation, when the remote push raises, propagates the failure but
leaves the new valuation cached: the local state after the failed
operation differs from the state before it. -/
theorem set_valuation_mutates_on_failure :
    (set_valuation .fail valuationState sampleValuation none).result =
      .error .raised ∧
    (set_valuation .fail valuationState sampleValuation none).state.valuation =
      some sampleValuation ∧
    valuationState.valuation = none :=
  ⟨rfl, rfl, rfl⟩

/-- Witness for the amended C7: a failing create leaves the unsaved base
state unchanged, and a failing put_positions run on a saved state leaves
it unchanged. -/
theorem failed_remote_ops_leave_state_witness :
    (put_portfolio allFailEnv baseState).state = baseState ∧
    (put_positions deleteFailEnv savedState).state = savedState :=
  ⟨(failed_remote_ops_leave_state allFailEnv
      deleteFailEnv baseState savedState 1 rfl).1 .raised rfl,
   (failed_remote_ops_leave_state allFailEnv
      deleteFailEnv baseState savedState 1 rfl).2⟩

theorem IdentifierType.fromName_memberName (t : IdentifierType) :
    IdentifierType.fromName t.memberName = some t := by
  cases t <;> rfl

theorem IdentifierType.memberValue_eq_memberName (t : IdentifierType)
    (h : t ≠ .RedCodeTicker) : t.memberValue = t.memberName := by
  cases t <;> simp_all [IdentifierType.memberValue]

theorem parseIdentifiers_round_trip (ids : List Identifier)
    (h : ∀ i ∈ ids, i.ident ≠ IdentifierType.RedCodeTicker) :
    parseIdentifiers (ids.map
      (fun i => { type := i.ident.memberValue, value := i.value })) =
    .ok ids := by
  induction ids with
  | nil => rfl
  | cons a rest ih =>
      have ha := h a (by simp)
      have hrest := ih (fun i hi => h i (by simp [hi]))
      simp only [List.map_cons, parseIdentifiers,
        IdentifierType.memberValue_eq_memberName a.ident ha,
        IdentifierType.fromName_memberName, hrest]

/-- C9 amended: for every fully-populated Position none of whose
identifier types is RedCodeTicker, serializing to the write payload,
presenting the equivalent read payload and parsing it yields a Position
with the same client_id, the same quantity (value, scale and currency)
and the same identifiers.  A RedCodeTicker identifier breaks the round
trip: its serialized value RedcodeTicker is not a member name, and the
read side looks enum members up by name, raising KeyError. -/
theorem position_round_trip (p : Position)
    (h : ∀ i ∈ p.identifiers, i.ident ≠ IdentifierType.RedCodeTicker) :
    ∃ q : Position,
      parseReadItem (readItemOfWrite (writePosition p)) = .ok q ∧
      q.clientId = p.clientId ∧ q.quantity = p.quantity ∧
      q.identifiers = p.identifiers := by
  refine ⟨{ clientId := p.clientId, description := none,
            identifiers := p.identifiers, quantity := p.quantity }, ?_,
          rfl, rfl, rfl⟩
  unfold parseReadItem readItemOfWrite writePosition
  simp only [parseIdentifiers_round_trip p.identifiers h]
  cases hq : p.quantity with
  | mk v sc cur =>
      cases sc
      simp [QuantityType.fromName, QuantityType.memberValue,
        QuantityType.memberName]

/-- A fully populated position carrying a RedCodeTicker identifier. -/
def redPosition : Position :=
  { clientId := "002", description := none,
    identifiers := [{ ident := .RedCodeTicker, value := "X" }],
    quantity := { value := 50, scale := .NumberOfInstruments,
                  currency := some "USD" } }

/-- C9 counterexample: the round trip of a fully-populated Position
holding a RedCodeTicker identifier does not yield a Position at all: the
parse raises KeyError, because the write side serialized the enum value
RedcodeTicker while the read side looks up by member name. -/
theorem position_round_trip_counterexample :
    parseReadItem (readItemOfWrite (writePosition redPosition)) =
      .error .raised :=
  rfl

/-- Witness for the amended C9 at a concrete position. -/
theorem position_round_trip_witness :
    ∃ q : Position,
      parseReadItem (readItemOfWrite (writePosition samplePosition)) =
        .ok q ∧
      q.clientId = samplePosition.clientId ∧
      q.quantity = samplePosition.quantity ∧
      q.identifiers = samplePosition.identifiers :=
  position_round_trip samplePosition (by decide)
